import Mathlib

/-!
Verification of `scrap_table.py`: a fetch → parse → normalize → persist
pipeline scraping a seismic-events HTML table and persisting the records
to DynamoDB with a CSV fallback.

Shallow embedding conventions:
* Python dicts become association lists (`Item`), preserving key insertion
  order; adding a new key appends it at the end, as CPython dicts do.
* The HTTP transport and the remote/file side effects are external inputs:
  they are modelled as explicit outcome parameters fed to the embedded
  functions, and the file system / uuid stream are threaded as state.
* A Python call that may let an exception escape returns `PyResult`;
  a call that always returns normally returns its value directly.
-/

set_option autoImplicit false

/-- Characters removed by Python `str.strip()` with no argument, restricted
to the ASCII whitespace characters (the Unicode-only whitespace code points
are irrelevant to every input considered here). -/
def isPySpace (c : Char) : Bool :=
  c = ' ' || c = '\t' || c = '\n' || c = '\r' || c = Char.ofNat 11 || c = Char.ofNat 12

/-- Python `s.strip()`: drop leading and trailing whitespace. -/
def pyStrip (s : String) : String :=
  String.mk (((s.data.dropWhile isPySpace).reverse.dropWhile isPySpace).reverse)

/-- Helper for `pySplitlines`: split a character list at line boundaries
`\n`, `\r` and `\r\n`, without a trailing empty segment. -/
def splitlinesAux : List Char → List Char → List String
  | [], acc => if acc.isEmpty then [] else [String.mk acc.reverse]
  | '\r' :: '\n' :: rest, acc => String.mk acc.reverse :: splitlinesAux rest []
  | '\r' :: rest, acc => String.mk acc.reverse :: splitlinesAux rest []
  | '\n' :: rest, acc => String.mk acc.reverse :: splitlinesAux rest []
  | c :: rest, acc => splitlinesAux rest (c :: acc)

/-- Python `s.splitlines()`, restricted to the line boundaries `\n`, `\r`,
`\r\n` (the exotic Unicode boundaries never occur in the inputs considered
here). A trailing line break produces no trailing empty segment. -/
def pySplitlines (s : String) : List String :=
  splitlinesAux s.data []

/-- Line 50 of `scrap_table.py`:
`" ".join([s.strip() for s in referencia.splitlines() if s.strip()])` —
the comprehension keeps the segments whose stripped form is nonempty and
yields those stripped forms. -/
def normalizeReferencia (referencia : String) : String :=
  " ".intercalate
    (((pySplitlines referencia).filter (fun s => !(pyStrip s == ""))).map pyStrip)

/-- The reference normalization as the spec words it: split on line breaks,
trim each segment, drop empty segments, join the survivors with a single
space. Stated separately from `normalizeReferencia` so the two can be
compared. -/
def specReferenceNormalization (text : String) : String :=
  " ".intercalate
    (((pySplitlines text).map pyStrip).filter (fun t => !(t == "")))

/-- Value stored in one field of a record dict: a string, or Python `None`
(the `reporte_url` field when the row has no anchor). -/
inductive Val where
  | str (s : String)
  | none
deriving DecidableEq, Repr

/-- A Python dict as an association list in key insertion order. -/
abbrev Item := List (String × Val)

/-- Key list of a dict, in insertion order (Python `list(d.keys())`). -/
def itemKeys (it : Item) : List String :=
  it.map Prod.fst

/-- Python `d[k]` as an optional lookup (first binding of the key). -/
def itemGet (it : Item) (k : String) : Option Val :=
  (it.find? (fun kv => kv.1 == k)).map Prod.snd

/-- One `<tr>` row as the code observes it through BeautifulSoup:
`tds` is the list of `td.get_text(strip=True)` cell texts in document
order, and `href` is the `href` attribute of the first anchor in the row,
if any. -/
structure RawRow where
  tds : List String
  href : Option String
deriving DecidableEq, Repr

/-- Line 13 of `scrap_table.py`. -/
def BASE_URL : String := "https://ultimosismo.igp.gob.pe"

/-- Python `urllib.parse.urljoin`, restricted to the cases this program
exercises: the base `BASE_URL` has an empty path, so a root-relative or
bare relative reference is attached after the authority, and an absolute
reference passes through unchanged. -/
def urljoin (base url : String) : String :=
  if url.startsWith "http://" || url.startsWith "https://" then url
  else if url.startsWith "/" then base ++ url
  else base ++ "/" ++ url

/-- Line 14 of `scrap_table.py`: `urljoin(BASE_URL, "/ultimo-sismo/sismos-reportados")`. -/
def TARGET_URL : String := urljoin BASE_URL "/ultimo-sismo/sismos-reportados"

/-- Behaviour of the HTTP transport for the single GET request:
either `requests.get` raises (connection failure, timeout), or a response
arrives with a status code and a body whose parse by
`soup.select "table.table tbody tr"` yields the given row list (an absent
or restructured table yields the empty list, not an error). -/
inductive Transport where
  | netError
  | response (status : Nat) (rows : List RawRow)
deriving DecidableEq, Repr

/-- Python `resp.raise_for_status()` raises exactly for 4xx and 5xx codes. -/
def raiseForStatusFails (status : Nat) : Bool :=
  400 ≤ status && status < 600

/-- Ambient process state visible to the pipeline: the stream of uuid4
values the process would draw (an oracle for the randomness) and the index
of the next draw. The fetch path never consumes it; only the DynamoDB sink
does. -/
structure Env where
  uuidSource : Nat → String
  uuidIndex : Nat
  clock : Nat

/-- Draw one uuid4 value: `str(uuid4())` in the source. -/
def freshUuid (env : Env) : String × Env :=
  (env.uuidSource env.uuidIndex, { env with uuidIndex := env.uuidIndex + 1 })

/-- Lines 42 to 44 of `scrap_table.py`: `tds[i].get_text(strip=True) if
len(tds) > i else ""`. The model keeps cell texts already extracted, so
this is a guarded list index defaulting to the empty string. -/
def getTd (row : RawRow) (i : Nat) : String :=
  if h : i < row.tds.length then row.tds.get ⟨i, h⟩ else ""

/-- Lines 40 to 58 of `scrap_table.py`: build the record dict for one row.
Every index access is length-guarded in the source, so the `try` body
cannot raise and the `except` branch that would skip the row is dead:
row parsing is total. -/
def parseRow (row : RawRow) : Item :=
  [("referencia", Val.str (normalizeReferencia (getTd row 0))),
   ("reporte_url",
     match row.href with
     | some h => Val.str (urljoin BASE_URL h)
     | Option.none => Val.none),
   ("fecha_hora", Val.str (getTd row 2)),
   ("magnitud", Val.str (getTd row 3))]

/-- Lines 20 to 62 of `scrap_table.py`: `fetch_latest_sismos`, returning
the record list together with the log lines the call emits. A transport
failure (a raising GET or a 4xx/5xx status) is caught at lines 31 to 33:
the call logs the error and returns the empty list. On success the first
`limit` rows are each parsed; no per-row exception can occur (see
`parseRow`). The ambient `env` is threaded to witness that this function
never reads it. -/
def fetchRun (env : Env) (t : Transport) (limit : Nat) : List Item × List String :=
  match t with
  | Transport.netError =>
    ([], ["Fetching " ++ TARGET_URL, "Error descargando la página"])
  | Transport.response status rows =>
    if raiseForStatusFails status then
      ([], ["Fetching " ++ TARGET_URL, "Error descargando la página"])
    else
      ((rows.take limit).map parseRow,
       ["Fetching " ++ TARGET_URL, "Filas encontradas: " ++ toString rows.length])

/-- The record list returned by `fetch_latest_sismos`. -/
def fetch_latest_sismos (env : Env) (t : Transport) (limit : Nat) : List Item :=
  (fetchRun env t limit).1

example : normalizeReferencia "  Lima\n  , 10km\n" = "Lima , 10km" := by decide

/-- Outcome of a Python call that may let an exception escape: a normal
return value, or an escaping exception identified by its class name. -/
inductive PyResult (α : Type) where
  | ok (a : α)
  | exn (name : String)
deriving DecidableEq, Repr

/-- Behaviour of the single `open(path, "w")` for the CSV sink: the open
succeeds, or it raises an `OSError` (the destination is untouched in the
latter case). -/
inductive CsvOutcome where
  | ok
  | ioError
deriving DecidableEq, Repr

/-- Content of the CSV destination file: `Option.none` when the file does
not exist, otherwise the list of written CSV rows (header first). -/
abbrev CsvFile := Option (List (List String))

/-- How one CSV cell is rendered for key `k` of dict `it`: a string value
verbatim, Python `None` as the empty string (the csv module writes `None`
as an empty field), and a missing key as the `DictWriter` default
`restval=""`. -/
def csvCell (it : Item) (k : String) : String :=
  match itemGet it k with
  | some (Val.str s) => s
  | some Val.none => ""
  | Option.none => ""

/-- Python `csv.DictWriter.writerow(it)` with the default
`extrasaction="raise"` and `restval=""`: a key of `it` outside
`fieldnames` raises `ValueError`; otherwise each fieldname is emitted in
order via `csvCell`. -/
def dictWriterRow (fieldnames : List String) (it : Item) : PyResult (List String) :=
  if it.any (fun kv => !(fieldnames.contains kv.1)) then
    PyResult.exn "ValueError"
  else
    PyResult.ok (fieldnames.map (csvCell it))

/-- Write the data rows one by one, as lines 74 to 75 do: the rows written
before a raising `writerow` stay in the file, and the first exception
escapes. -/
def writeRowsAux (fieldnames : List String) : List Item → List (List String) × PyResult Unit
  | [] => ([], PyResult.ok ())
  | it :: rest =>
    match dictWriterRow fieldnames it with
    | PyResult.exn e => ([], PyResult.exn e)
    | PyResult.ok r =>
      let tail := writeRowsAux fieldnames rest
      (r :: tail.1, tail.2)

/-- Result of the CSV sink: the call outcome and the destination file
content afterwards. -/
structure CsvResult where
  result : PyResult Unit
  fs : CsvFile
deriving DecidableEq, Repr

/-- Lines 65 to 77 of `scrap_table.py`: `save_to_csv`. On an empty item
list the function logs and returns with no file operation. Otherwise
`open(path, "w")` truncates the destination (or raises `OSError`, modelled
by `CsvOutcome.ioError`, leaving the file untouched), the header is the
key list of the first item, and each item is written as one row. -/
def save_to_csv (out : CsvOutcome) (items : List Item) (fs : CsvFile) : CsvResult :=
  match items with
  | [] => ⟨PyResult.ok (), fs⟩
  | it0 :: _ =>
    match out with
    | CsvOutcome.ioError => ⟨PyResult.exn "OSError", fs⟩
    | CsvOutcome.ok =>
      let keys := itemKeys it0
      let written := writeRowsAux keys items
      ⟨written.2, some (keys :: written.1)⟩

/-- Behaviour of the remote batch write issued by `table.batch_writer()`:
the flush succeeds; or the service reports an error (throttling,
validation, access denied, ...), surfacing as a
`botocore.exceptions.ClientError`; or connectivity fails before any
service response, surfacing as a `botocore.exceptions.BotoCoreError`
subclass such as `EndpointConnectionError`, which is NOT a `ClientError`. -/
inductive DdbOutcome where
  | ok
  | clientError
  | connError
deriving DecidableEq, Repr

/-- Lines 90 to 96 of `scrap_table.py`: the loop body mutates each caller
dict in place, appending a fresh `("id", str(uuid4()))` binding when the
key is absent (CPython appends a new key at the end of the dict order). -/
def assignIds (env : Env) : List Item → List Item × Env
  | [] => ([], env)
  | it :: rest =>
    let step :=
      if (itemKeys it).contains "id" then (it, env)
      else
        let u := freshUuid env
        (it ++ [("id", Val.str u.1)], u.2)
    let tail := assignIds step.2 rest
    (step.1 :: tail.1, tail.2)

/-- Result of the DynamoDB sink: the returned boolean and the item list as
mutated (or the escaping exception), the ambient state after the uuid
draws, and the number of remote batch flushes attempted. -/
structure DdbResult where
  result : PyResult (Bool × List Item)
  env : Env
  remoteCalls : Nat

/-- Lines 80 to 101 of `scrap_table.py`: `save_to_dynamodb`. An empty item
list returns `True` with no remote call. Otherwise every item gets an `id`
and the batch is flushed once (fewer than 25 items are buffered until the
`batch_writer` context exits, so the ids are assigned before any remote
failure surfaces). The `except ClientError` clause converts a
`ClientError` into a `False` return; a connectivity failure is a
`BotoCoreError`, not a `ClientError`, and escapes the function. -/
def save_to_dynamodb (env : Env) (out : DdbOutcome) (items : List Item) : DdbResult :=
  match items with
  | [] => ⟨PyResult.ok (true, []), env, 0⟩
  | _ :: _ =>
    let assigned := assignIds env items
    match out with
    | DdbOutcome.ok => ⟨PyResult.ok (true, assigned.1), assigned.2, 1⟩
    | DdbOutcome.clientError => ⟨PyResult.ok (false, assigned.1), assigned.2, 1⟩
    | DdbOutcome.connError => ⟨PyResult.exn "EndpointConnectionError", assigned.2, 1⟩

/-- Result of the persistence policy: the final item list (the value bound
to `items` when the handler returns) or the escaping exception, the file
system and ambient state afterwards, and the argument lists of every
keyed-store and tabular sink invocation. -/
structure PersistResult where
  result : PyResult (List Item)
  fs : CsvFile
  env : Env
  ddbCalls : List (List Item)
  csvCalls : List (List Item)

/-- Python truthiness of `os.environ.get("DDB_TABLE")`: `None` and the
empty string are falsy, every other string is truthy. -/
def truthy : Option String → Bool
  | Option.none => false
  | some s => !(s == "")

/-- Lines 113 to 119 of `scrap_table.py` (the persistence policy inside
`lambda_handler`): `saved = False`; when `DDB_TABLE` is truthy,
`saved = save_to_dynamodb(items, table_name)` — an exception escaping that
call propagates and the CSV sink is never reached; then
`if not table_name or not saved: save_to_csv(items, ...)`, whose
exceptions also propagate. The `items` list object is shared, so the CSV
call observes the dicts as mutated by the DynamoDB attempt. -/
def persist_with_fallback (env : Env) (fs : CsvFile) (ddbOut : DdbOutcome)
    (csvOut : CsvOutcome) (items : List Item) (tableName : Option String) :
    PersistResult :=
  if truthy tableName then
    let d := save_to_dynamodb env ddbOut items
    match d.result with
    | PyResult.exn e => ⟨PyResult.exn e, fs, d.env, [items], []⟩
    | PyResult.ok (saved, items2) =>
      if saved then ⟨PyResult.ok items2, fs, d.env, [items], []⟩
      else
        let c := save_to_csv csvOut items2 fs
        match c.result with
        | PyResult.exn e => ⟨PyResult.exn e, c.fs, d.env, [items], [items2]⟩
        | PyResult.ok _ => ⟨PyResult.ok items2, c.fs, d.env, [items], [items2]⟩
  else
    let c := save_to_csv csvOut items fs
    match c.result with
    | PyResult.exn e => ⟨PyResult.exn e, c.fs, env, [], [items]⟩
    | PyResult.ok _ => ⟨PyResult.ok items, c.fs, env, [], [items]⟩

/-- Lines 104 to 121 of `scrap_table.py`: `lambda_handler` fetches up to
`limit` records and runs the persistence policy on the result. -/
def lambda_handler (env : Env) (fs : CsvFile) (t : Transport)
    (ddbOut : DdbOutcome) (csvOut : CsvOutcome) (limit : Nat)
    (tableName : Option String) : PersistResult :=
  persist_with_fallback env fs ddbOut csvOut (fetch_latest_sismos env t limit) tableName

/-- Fixed uuid stream, index and clock used to instantiate theorems at
concrete inputs. -/
def envDemo : Env :=
  ⟨fun n => "uuid-" ++ toString n, 0, 0⟩

/-- A typical well-formed row: four cells and an anchor. -/
def rowDemo : RawRow :=
  ⟨["  Lima\n  , 10km\n", "IV", "2024-01-01 00:00:00", "4.5"], some "/reporte/123"⟩

/-- A short row: a single cell and no anchor. -/
def rowDemoShort : RawRow :=
  ⟨["Callao"], Option.none⟩

lemma itemKeys_parseRow (row : RawRow) :
    itemKeys (parseRow row) = ["referencia", "reporte_url", "fecha_hora", "magnitud"] := rfl

lemma keys_of_mem_fetch (env : Env) (t : Transport) (limit : Nat) (it : Item)
    (h : it ∈ fetch_latest_sismos env t limit) :
    itemKeys it = ["referencia", "reporte_url", "fecha_hora", "magnitud"] := by
  cases t with
  | netError => simp [fetch_latest_sismos, fetchRun] at h
  | response status rows =>
    by_cases hs : raiseForStatusFails status
    · simp [fetch_latest_sismos, fetchRun, hs] at h
    · have h2 : it ∈ (rows.take limit).map parseRow := by
        simpa [fetch_latest_sismos, fetchRun, hs] using h
      obtain ⟨row, _, rfl⟩ := List.mem_map.mp h2
      exact itemKeys_parseRow row

lemma filter_pyStrip_comm (l : List String) :
    (l.filter (fun s => !(pyStrip s == ""))).map pyStrip
      = (l.map pyStrip).filter (fun t => !(t == "")) := by
  induction l with
  | nil => rfl
  | cons a l ih =>
    by_cases h : pyStrip a = ""
    · simp [List.filter_cons, h, ih]
    · simp [List.filter_cons, h, ih]

/-- C1: for every limit and every transport behaviour that fails (a raising
GET or a 4xx/5xx status turned into an exception by `raise_for_status`),
`fetch_latest_sismos` returns normally with the empty record list and the
failure is logged. -/
theorem c1_transport_failure_logs_and_returns_empty (env : Env)
    (limit status : Nat) (rows : List RawRow)
    (h : raiseForStatusFails status = true) :
    fetchRun env Transport.netError limit =
      ([], ["Fetching " ++ TARGET_URL, "Error descargando la página"]) ∧
    fetchRun env (Transport.response status rows) limit =
      ([], ["Fetching " ++ TARGET_URL, "Error descargando la página"]) := by
  refine ⟨rfl, ?_⟩
  simp [fetchRun, h]

/-- Witness for C1 at a concrete 503 response. -/
theorem c1_transport_failure_witness :
    raiseForStatusFails 503 = true ∧
    fetchRun envDemo (Transport.response 503 [rowDemo]) 10 =
      ([], ["Fetching " ++ TARGET_URL, "Error descargando la página"]) :=
  ⟨by decide,
   (c1_transport_failure_logs_and_returns_empty envDemo 10 503 [rowDemo] (by decide)).2⟩

/-- C4: on a successful response whose table body holds `rows`, the fetch
returns exactly `min rows.length limit` records, the record at index `i`
being the parse of the row at index `i`. -/
theorem c4_fetch_returns_min_limit_rows_in_order (env : Env)
    (status limit : Nat) (rows : List RawRow)
    (h : raiseForStatusFails status = false) :
    (fetch_latest_sismos env (Transport.response status rows) limit).length
        = min rows.length limit ∧
    ∀ i, i < limit →
      (fetch_latest_sismos env (Transport.response status rows) limit)[i]?
        = (rows[i]?).map parseRow := by
  constructor
  · simp [fetch_latest_sismos, fetchRun, h, Nat.min_comm]
  · intro i hi
    simp [fetch_latest_sismos, fetchRun, h, List.getElem?_take, hi]

/-- Witness for C4: two rows, limit one. -/
theorem c4_fetch_min_limit_witness :
    raiseForStatusFails 200 = false ∧
    (fetch_latest_sismos envDemo (Transport.response 200 [rowDemo, rowDemoShort]) 1).length
        = min 2 1 ∧
    (fetch_latest_sismos envDemo (Transport.response 200 [rowDemo, rowDemoShort]) 1)[0]?
        = (([rowDemo, rowDemoShort])[0]?).map parseRow :=
  ⟨by decide,
   (c4_fetch_returns_min_limit_rows_in_order envDemo 200 1 [rowDemo, rowDemoShort] (by decide)).1,
   (c4_fetch_returns_min_limit_rows_in_order envDemo 200 1 [rowDemo, rowDemoShort] (by decide)).2
     0 (by decide)⟩

/-- C6: the inline normalization of line 50 agrees with the spec wording
(split on line breaks, trim, drop empties, join with one space) on every
input, and the spec example evaluates as stated. -/
theorem c6_reference_normalization_matches_spec :
    (∀ s, normalizeReferencia s = specReferenceNormalization s) ∧
    normalizeReferencia "  Lima\n  , 10km\n" = "Lima , 10km" := by
  constructor
  · intro s
    simp [normalizeReferencia, specReferenceNormalization, filter_pyStrip_comm]
  · decide

/-- C8: the fetch output depends only on the transport behaviour (the
response body rows and status) and the limit, not on the ambient uuid
stream or clock: two runs with identical responses are identical. -/
theorem c8_fetch_deterministic (env1 env2 : Env) (t : Transport) (limit : Nat) :
    fetchRun env1 t limit = fetchRun env2 t limit := by
  cases t <;> rfl

/-- C10: every record emitted by the fetch has exactly the four keys
`referencia`, `reporte_url`, `fecha_hora`, `magnitud`, in insertion order,
so the collection handed to the sinks is homogeneous. -/
theorem c10_records_have_fixed_field_set (env : Env) (t : Transport)
    (limit : Nat) (it : Item) (h : it ∈ fetch_latest_sismos env t limit) :
    itemKeys it = ["referencia", "reporte_url", "fecha_hora", "magnitud"] :=
  keys_of_mem_fetch env t limit it h

/-- Witness for C10 on a concrete fetched record. -/
theorem c10_fixed_field_set_witness :
    itemKeys (parseRow rowDemoShort)
      = ["referencia", "reporte_url", "fecha_hora", "magnitud"] :=
  c10_records_have_fixed_field_set envDemo (Transport.response 200 [rowDemoShort]) 1
    (parseRow rowDemoShort) (by decide)

/-- C5: the column mapping is positional — cell 0 (normalized) becomes
`referencia`, cell 2 becomes `fecha_hora`, cell 3 becomes `magnitud` — a
missing index yields the empty string for that field, and every selected
row is emitted, never dropped. -/
theorem c5_positional_mapping_tolerates_short_rows (row : RawRow) :
    itemGet (parseRow row) "referencia"
        = some (Val.str (normalizeReferencia (getTd row 0))) ∧
    itemGet (parseRow row) "fecha_hora" = some (Val.str (getTd row 2)) ∧
    itemGet (parseRow row) "magnitud" = some (Val.str (getTd row 3)) ∧
    (row.tds.length = 0 →
      itemGet (parseRow row) "referencia" = some (Val.str "")) ∧
    (row.tds.length ≤ 2 →
      itemGet (parseRow row) "fecha_hora" = some (Val.str "")) ∧
    (row.tds.length ≤ 3 →
      itemGet (parseRow row) "magnitud" = some (Val.str "")) ∧
    (∀ env status limit rows, raiseForStatusFails status = false →
      row ∈ rows.take limit →
      parseRow row ∈ fetch_latest_sismos env (Transport.response status rows) limit) := by
  refine ⟨rfl, rfl, rfl, ?_, ?_, ?_, ?_⟩
  · intro h0
    have hlt : ¬ (0 < row.tds.length) := by omega
    show some (Val.str (normalizeReferencia (getTd row 0))) = some (Val.str "")
    simp only [getTd]
    rw [dif_neg hlt]
    decide
  · intro h2
    have hlt : ¬ (2 < row.tds.length) := by omega
    show some (Val.str (getTd row 2)) = some (Val.str "")
    simp only [getTd]
    rw [dif_neg hlt]
  · intro h3
    have hlt : ¬ (3 < row.tds.length) := by omega
    show some (Val.str (getTd row 3)) = some (Val.str "")
    simp only [getTd]
    rw [dif_neg hlt]
  · intro env status limit rows hs hmem
    have : parseRow row ∈ (rows.take limit).map parseRow :=
      List.mem_map_of_mem parseRow hmem
    simpa [fetch_latest_sismos, fetchRun, hs] using this

/-- Witness for C5: the one-cell row yields an empty magnitude and is still
emitted by the fetch. -/
theorem c5_short_row_witness :
    itemGet (parseRow rowDemoShort) "magnitud" = some (Val.str "") ∧
    parseRow rowDemoShort ∈
      fetch_latest_sismos envDemo (Transport.response 200 [rowDemo, rowDemoShort]) 2 :=
  ⟨(c5_positional_mapping_tolerates_short_rows rowDemoShort).2.2.2.2.2.1 (by decide),
   (c5_positional_mapping_tolerates_short_rows rowDemoShort).2.2.2.2.2.2 envDemo 200 2
     [rowDemo, rowDemoShort] (by decide) (by decide)⟩

/-- Counterexample for C3: on a nonempty collection whose batch write fails
with a connectivity error, `save_to_dynamodb` does not return a failure
result — the `except ClientError` clause does not cover the
`BotoCoreError` hierarchy, so the exception escapes the call. -/
theorem c3_connectivity_error_escapes :
    (save_to_dynamodb envDemo DdbOutcome.connError [parseRow rowDemo]).result
      = PyResult.exn "EndpointConnectionError" := rfl

/-- C3 amended: the keyed-store sink is a no-op success on an empty
collection (no remote call); on a nonempty collection it returns `False`
when the batch write fails with a service-reported `ClientError` (this
covers throttling) and `True` on success — but a connectivity failure,
raised outside the `ClientError` hierarchy, escapes instead of being
reported. -/
theorem c3_failure_reporting_amended (env : Env) (items : List Item) :
    (∀ out, items = [] →
      save_to_dynamodb env out items = ⟨PyResult.ok (true, []), env, 0⟩) ∧
    (items ≠ [] →
      (save_to_dynamodb env DdbOutcome.clientError items).result
          = PyResult.ok (false, (assignIds env items).1) ∧
      (save_to_dynamodb env DdbOutcome.clientError items).remoteCalls = 1 ∧
      (save_to_dynamodb env DdbOutcome.ok items).result
          = PyResult.ok (true, (assignIds env items).1)) := by
  constructor
  · rintro out rfl
    rfl
  · intro hne
    obtain ⟨a, l, rfl⟩ := List.exists_cons_of_ne_nil hne
    exact ⟨rfl, rfl, rfl⟩

/-- Witness for C3 amended at concrete inputs. -/
theorem c3_failure_reporting_witness :
    save_to_dynamodb envDemo DdbOutcome.connError []
        = ⟨PyResult.ok (true, []), envDemo, 0⟩ ∧
    (save_to_dynamodb envDemo DdbOutcome.clientError [parseRow rowDemo]).result
        = PyResult.ok (false, (assignIds envDemo [parseRow rowDemo]).1) :=
  ⟨(c3_failure_reporting_amended envDemo []).1 DdbOutcome.connError rfl,
   ((c3_failure_reporting_amended envDemo [parseRow rowDemo]).2 (by decide)).1⟩

/-- A record whose key set is a strict subset of `itemHet2`. -/
def itemHet1 : Item := [("referencia", Val.str "Lima")]

/-- A record carrying a key absent from `itemHet1`. -/
def itemHet2 : Item := [("referencia", Val.str "Ica"), ("extra", Val.str "x")]

/-- Counterexample for C7: on a nonempty collection whose second record has
a key outside the first record field set, the sink does not write one row
per record — `DictWriter.writerow` raises `ValueError` and the file keeps
only the rows written before the failure. -/
theorem c7_heterogeneous_records_break_sink :
    (save_to_csv CsvOutcome.ok [itemHet1, itemHet2] Option.none).result
        = PyResult.exn "ValueError" ∧
    (save_to_csv CsvOutcome.ok [itemHet1, itemHet2] Option.none).fs
        = some [["referencia"], ["Lima"]] :=
  ⟨rfl, rfl⟩

lemma writeRowsAux_total (keys : List String) (items : List Item)
    (h : ∀ it ∈ items, ∀ kv ∈ it, keys.contains kv.1 = true) :
    writeRowsAux keys items
      = (items.map (fun it => keys.map (csvCell it)), PyResult.ok ()) := by
  induction items with
  | nil => rfl
  | cons a l ih =>
    have hrow : dictWriterRow keys a = PyResult.ok (keys.map (csvCell a)) := by
      simp only [dictWriterRow]
      rw [if_neg]
      simp only [Bool.not_eq_true]
      rw [List.any_eq_false]
      intro kv hkv
      have hc := h a (List.mem_cons_self a l) kv hkv
      simpa using hc
    have ihl := ih (fun it hit kv hkv => h it (List.mem_cons_of_mem a hit) kv hkv)
    simp [writeRowsAux, hrow, ihl]

/-- C7 amended: on empty input the tabular sink is a no-op success leaving
the destination untouched; on nonempty input whose records all have their
keys among the first record key set, it overwrites the destination with the
first record header followed by one row per record. The restriction is
needed: a record with an extra key makes `DictWriter.writerow` raise (see
the counterexample). -/
theorem c7_csv_write_amended (out : CsvOutcome) (items : List Item) (fs : CsvFile) :
    (items = [] → save_to_csv out items fs = ⟨PyResult.ok (), fs⟩) ∧
    (∀ it0 rest, items = it0 :: rest →
      (∀ it ∈ items, ∀ kv ∈ it, (itemKeys it0).contains kv.1 = true) →
      save_to_csv CsvOutcome.ok items fs =
        ⟨PyResult.ok (),
         some (itemKeys it0 ::
           items.map (fun it => (itemKeys it0).map (csvCell it)))⟩) := by
  constructor
  · rintro rfl
    rfl
  · rintro it0 rest rfl hhom
    simp [save_to_csv, writeRowsAux_total (itemKeys it0) (it0 :: rest) hhom]

/-- Witness for C7 amended: the empty no-op on a failing open, and an
overwrite of prior contents by two homogeneous fetched records. -/
theorem c7_csv_write_witness :
    save_to_csv CsvOutcome.ioError [] Option.none = ⟨PyResult.ok (), Option.none⟩ ∧
    save_to_csv CsvOutcome.ok [parseRow rowDemo, parseRow rowDemoShort] (some [["old"]])
      = ⟨PyResult.ok (),
         some (itemKeys (parseRow rowDemo) ::
           ([parseRow rowDemo, parseRow rowDemoShort]).map
             (fun it => (itemKeys (parseRow rowDemo)).map (csvCell it)))⟩ :=
  ⟨(c7_csv_write_amended CsvOutcome.ioError [] Option.none).1 rfl,
   (c7_csv_write_amended CsvOutcome.ok [parseRow rowDemo, parseRow rowDemoShort]
       (some [["old"]])).2 (parseRow rowDemo) [parseRow rowDemoShort] rfl (by decide)⟩

lemma persist_no_table (env : Env) (fs : CsvFile) (ddbOut : DdbOutcome)
    (csvOut : CsvOutcome) (items : List Item) (tableName : Option String)
    (ht : truthy tableName = false) :
    persist_with_fallback env fs ddbOut csvOut items tableName
      = ⟨match (save_to_csv csvOut items fs).result with
         | PyResult.exn e => PyResult.exn e
         | PyResult.ok _ => PyResult.ok items,
         (save_to_csv csvOut items fs).fs, env, [], [items]⟩ := by
  cases hc : (save_to_csv csvOut items fs).result <;>
    simp [persist_with_fallback, ht, hc]

lemma persist_table_empty (env : Env) (fs : CsvFile) (ddbOut : DdbOutcome)
    (csvOut : CsvOutcome) (tableName : Option String)
    (ht : truthy tableName = true) :
    persist_with_fallback env fs ddbOut csvOut [] tableName
      = ⟨PyResult.ok [], fs, env, [[]], []⟩ := by
  simp [persist_with_fallback, ht, save_to_dynamodb]

lemma persist_table_ok (env : Env) (fs : CsvFile) (csvOut : CsvOutcome)
    (items : List Item) (tableName : Option String)
    (ht : truthy tableName = true) (hne : items ≠ []) :
    persist_with_fallback env fs DdbOutcome.ok csvOut items tableName
      = ⟨PyResult.ok (assignIds env items).1, fs, (assignIds env items).2,
         [items], []⟩ := by
  obtain ⟨a, l, rfl⟩ := List.exists_cons_of_ne_nil hne
  simp [persist_with_fallback, ht, save_to_dynamodb]

lemma persist_table_clientError (env : Env) (fs : CsvFile) (csvOut : CsvOutcome)
    (items : List Item) (tableName : Option String)
    (ht : truthy tableName = true) (hne : items ≠ []) :
    persist_with_fallback env fs DdbOutcome.clientError csvOut items tableName
      = ⟨match (save_to_csv csvOut (assignIds env items).1 fs).result with
         | PyResult.exn e => PyResult.exn e
         | PyResult.ok _ => PyResult.ok (assignIds env items).1,
         (save_to_csv csvOut (assignIds env items).1 fs).fs,
         (assignIds env items).2, [items], [(assignIds env items).1]⟩ := by
  obtain ⟨a, l, rfl⟩ := List.exists_cons_of_ne_nil hne
  cases hc : (save_to_csv csvOut (assignIds env (a :: l)).1 fs).result <;>
    simp [persist_with_fallback, ht, save_to_dynamodb, hc]

lemma persist_table_connError (env : Env) (fs : CsvFile) (csvOut : CsvOutcome)
    (items : List Item) (tableName : Option String)
    (ht : truthy tableName = true) (hne : items ≠ []) :
    persist_with_fallback env fs DdbOutcome.connError csvOut items tableName
      = ⟨PyResult.exn "EndpointConnectionError", fs, (assignIds env items).2,
         [items], []⟩ := by
  obtain ⟨a, l, rfl⟩ := List.exists_cons_of_ne_nil hne
  simp [persist_with_fallback, ht, save_to_dynamodb]

/-- Counterexample for C2: with a configured keyed-store target, a nonempty
collection and a connectivity failure of the batch write, the policy lets
the exception propagate and never invokes the tabular sink — an exception
that is not a tabular-sink failure reaches the caller. -/
theorem c2_connectivity_error_skips_fallback :
    (persist_with_fallback envDemo Option.none DdbOutcome.connError CsvOutcome.ok
        [parseRow rowDemo] (some "sismos")).result
      = PyResult.exn "EndpointConnectionError" ∧
    (persist_with_fallback envDemo Option.none DdbOutcome.connError CsvOutcome.ok
        [parseRow rowDemo] (some "sismos")).csvCalls = [] :=
  ⟨rfl, rfl⟩

/-- C2 amended: the keyed-store sink is attempted first when a target is
configured and, on its success (or on an empty collection, saved without a
remote call), the tabular sink is not invoked; when the keyed store
reports failure via a caught `ClientError`, or no target is configured,
the tabular sink is invoked exactly once, with the collection as it stands
after the keyed-store attempt (ids assigned in place); a keyed-store
exception outside the `ClientError` hierarchy (connectivity) propagates
without invoking the tabular sink; any other escaping exception is one
raised by the single tabular-sink invocation. -/
theorem c2_persistence_policy_amended (env : Env) (fs : CsvFile)
    (ddbOut : DdbOutcome) (csvOut : CsvOutcome) (items : List Item)
    (tableName : Option String) :
    (truthy tableName = false →
      (persist_with_fallback env fs ddbOut csvOut items tableName).ddbCalls = [] ∧
      (persist_with_fallback env fs ddbOut csvOut items tableName).csvCalls = [items]) ∧
    (truthy tableName = true →
      (persist_with_fallback env fs ddbOut csvOut items tableName).ddbCalls = [items] ∧
      (ddbOut = DdbOutcome.ok ∨ items = [] →
        (persist_with_fallback env fs ddbOut csvOut items tableName).csvCalls = []) ∧
      (ddbOut = DdbOutcome.clientError → items ≠ [] →
        (persist_with_fallback env fs ddbOut csvOut items tableName).csvCalls
          = [(assignIds env items).1]) ∧
      (ddbOut = DdbOutcome.connError → items ≠ [] →
        (persist_with_fallback env fs ddbOut csvOut items tableName).result
            = PyResult.exn "EndpointConnectionError" ∧
        (persist_with_fallback env fs ddbOut csvOut items tableName).csvCalls = [])) ∧
    (∀ e, (persist_with_fallback env fs ddbOut csvOut items tableName).result
          = PyResult.exn e →
      (∃ a, (persist_with_fallback env fs ddbOut csvOut items tableName).csvCalls
              = [a] ∧
            (save_to_csv csvOut a fs).result = PyResult.exn e) ∨
      (ddbOut = DdbOutcome.connError ∧ e = "EndpointConnectionError" ∧
       (persist_with_fallback env fs ddbOut csvOut items tableName).csvCalls = [])) := by
  refine ⟨?_, ?_, ?_⟩
  · intro ht
    rw [persist_no_table env fs ddbOut csvOut items tableName ht]
    exact ⟨rfl, rfl⟩
  · intro ht
    refine ⟨?_, ?_, ?_, ?_⟩
    · cases items with
      | nil => rw [persist_table_empty env fs ddbOut csvOut tableName ht]
      | cons a l =>
        cases ddbOut with
        | ok => rw [persist_table_ok env fs csvOut (a :: l) tableName ht (by simp)]
        | clientError =>
          rw [persist_table_clientError env fs csvOut (a :: l) tableName ht (by simp)]
        | connError =>
          rw [persist_table_connError env fs csvOut (a :: l) tableName ht (by simp)]
    · rintro (rfl | rfl)
      · cases items with
        | nil => rw [persist_table_empty env fs DdbOutcome.ok csvOut tableName ht]
        | cons a l =>
          rw [persist_table_ok env fs csvOut (a :: l) tableName ht (by simp)]
      · rw [persist_table_empty env fs ddbOut csvOut tableName ht]
    · rintro rfl hne
      rw [persist_table_clientError env fs csvOut items tableName ht hne]
    · rintro rfl hne
      rw [persist_table_connError env fs csvOut items tableName ht hne]
      exact ⟨rfl, rfl⟩
  · intro e he
    by_cases ht : truthy tableName
    · cases items with
      | nil =>
        rw [persist_table_empty env fs ddbOut csvOut tableName ht] at he
        simp at he
      | cons a l =>
        cases ddbOut with
        | ok =>
          rw [persist_table_ok env fs csvOut (a :: l) tableName ht (by simp)] at he
          simp at he
        | clientError =>
          rw [persist_table_clientError env fs csvOut (a :: l) tableName ht (by simp)] at he
          cases hc : (save_to_csv csvOut (assignIds env (a :: l)).1 fs).result with
          | ok u => rw [hc] at he; simp at he
          | exn e2 =>
            rw [hc] at he
            simp only [PyResult.exn.injEq] at he
            subst he
            left
            refine ⟨(assignIds env (a :: l)).1, ?_, hc⟩
            rw [persist_table_clientError env fs csvOut (a :: l) tableName ht (by simp)]
        | connError =>
          rw [persist_table_connError env fs csvOut (a :: l) tableName ht (by simp)] at he
          simp only [PyResult.exn.injEq] at he
          right
          refine ⟨rfl, he.symm, ?_⟩
          rw [persist_table_connError env fs csvOut (a :: l) tableName ht (by simp)]
    · have ht2 : truthy tableName = false := by simpa using ht
      rw [persist_no_table env fs ddbOut csvOut items tableName ht2] at he
      cases hc : (save_to_csv csvOut items fs).result with
      | ok u => rw [hc] at he; simp at he
      | exn e2 =>
        rw [hc] at he
        simp only [PyResult.exn.injEq] at he
        subst he
        left
        refine ⟨items, ?_, hc⟩
        rw [persist_no_table env fs ddbOut csvOut items tableName ht2]

/-- Witness for C2 amended: a caught `ClientError` falls back to exactly one
tabular write with the id-assigned collection; a successful keyed-store
write skips the tabular sink. -/
theorem c2_persistence_policy_witness :
    (persist_with_fallback envDemo Option.none DdbOutcome.clientError CsvOutcome.ok
        [parseRow rowDemo] (some "sismos")).csvCalls
      = [(assignIds envDemo [parseRow rowDemo]).1] ∧
    (persist_with_fallback envDemo Option.none DdbOutcome.ok CsvOutcome.ok
        [parseRow rowDemo] (some "sismos")).csvCalls = [] :=
  ⟨((c2_persistence_policy_amended envDemo Option.none DdbOutcome.clientError
       CsvOutcome.ok [parseRow rowDemo] (some "sismos")).2.1 (by decide)).2.2.1
      rfl (by decide),
   ((c2_persistence_policy_amended envDemo Option.none DdbOutcome.ok
       CsvOutcome.ok [parseRow rowDemo] (some "sismos")).2.1 (by decide)).2.1
      (Or.inl rfl)⟩

lemma itemGet_append_id (it : Item) (u : String) (h : "id" ∉ itemKeys it) :
    itemGet (it ++ [("id", Val.str u)]) "id" = some (Val.str u) := by
  have hnone : it.find? (fun kv => kv.1 == "id") = Option.none := by
    rw [List.find?_eq_none]
    intro kv hkv
    simp only [beq_iff_eq]
    intro heq
    exact h (heq ▸ List.mem_map_of_mem Prod.fst hkv)
  simp [itemGet, List.find?_append, hnone]

lemma assignIds_all (env : Env) (items : List Item) (K : List String)
    (hK : ∀ it ∈ items, itemKeys it = K) (hid : "id" ∉ K) :
    (assignIds env items).1.length = items.length ∧
    ∀ it2 ∈ (assignIds env items).1,
      itemKeys it2 = K ++ ["id"] ∧ ∃ u, itemGet it2 "id" = some (Val.str u) := by
  induction items generalizing env with
  | nil =>
    refine ⟨rfl, ?_⟩
    intro it2 h2
    simp [assignIds] at h2
  | cons a l ih =>
    have haK : itemKeys a = K := hK a (List.mem_cons_self a l)
    have hidA : "id" ∉ itemKeys a := haK ▸ hid
    have hcont : (itemKeys a).contains "id" = false := by simpa using hidA
    obtain ⟨ihlen, ihmem⟩ :=
      ih (freshUuid env).2 (fun it hit => hK it (List.mem_cons_of_mem a hit))
    constructor
    · simp [assignIds, hcont, hidA, ihlen]
    · intro it2 h2
      simp only [assignIds, hcont, Bool.false_eq_true, if_false,
        List.mem_cons] at h2
      rcases h2 with rfl | h2
      · refine ⟨?_, (freshUuid env).1, itemGet_append_id a _ hidA⟩
        simp [itemKeys, haK]
        exact haK
      · exact ihmem it2 h2

/-- C9: when the keyed-store batch write fails with a caught `ClientError`
after id assignment, the collection handed to the tabular sink is the
in-place mutated one: every record now carries an `id` binding appended
after the four normalizer fields, the collection differs from the
normalizer output, and the written file has `id` in its header and one
cell for it in every row. -/
theorem c9_fallback_sees_mutated_records (env : Env) (fs : CsvFile)
    (status limit : Nat) (rows : List RawRow) (tn : String)
    (hs : raiseForStatusFails status = false)
    (htn : truthy (some tn) = true)
    (hne : fetch_latest_sismos env (Transport.response status rows) limit ≠ []) :
    (persist_with_fallback env fs DdbOutcome.clientError CsvOutcome.ok
        (fetch_latest_sismos env (Transport.response status rows) limit)
        (some tn)).csvCalls
      = [(assignIds env
            (fetch_latest_sismos env (Transport.response status rows) limit)).1] ∧
    (assignIds env
        (fetch_latest_sismos env (Transport.response status rows) limit)).1
      ≠ fetch_latest_sismos env (Transport.response status rows) limit ∧
    (∀ it2 ∈ (assignIds env
        (fetch_latest_sismos env (Transport.response status rows) limit)).1,
      itemKeys it2 = ["referencia", "reporte_url", "fecha_hora", "magnitud", "id"] ∧
      ∃ u, itemGet it2 "id" = some (Val.str u)) ∧
    (persist_with_fallback env fs DdbOutcome.clientError CsvOutcome.ok
        (fetch_latest_sismos env (Transport.response status rows) limit)
        (some tn)).fs
      = some (["referencia", "reporte_url", "fecha_hora", "magnitud", "id"] ::
          (assignIds env
            (fetch_latest_sismos env (Transport.response status rows) limit)).1.map
            (fun it2 =>
              (["referencia", "reporte_url", "fecha_hora", "magnitud", "id"]).map
                (csvCell it2))) := by
  set items := fetch_latest_sismos env (Transport.response status rows) limit with hdef
  have hkeys : ∀ it ∈ items, itemKeys it
      = ["referencia", "reporte_url", "fecha_hora", "magnitud"] :=
    fun it h => keys_of_mem_fetch env (Transport.response status rows) limit it h
  obtain ⟨hlen, hmem⟩ :=
    assignIds_all env items ["referencia", "reporte_url", "fecha_hora", "magnitud"]
      hkeys (by decide)
  obtain ⟨a, l, hal⟩ := List.exists_cons_of_ne_nil hne
  have hassignedne : (assignIds env items).1 ≠ [] := by
    intro h0
    have hx := hlen
    rw [h0, hal] at hx
    simp at hx
  obtain ⟨a2, l2, ha2⟩ := List.exists_cons_of_ne_nil hassignedne
  have ha2mem : a2 ∈ (assignIds env items).1 := by
    rw [ha2]
    exact List.mem_cons_self a2 l2
  have hk2 : itemKeys a2
      = ["referencia", "reporte_url", "fecha_hora", "magnitud"] ++ ["id"] :=
    (hmem a2 ha2mem).1
  have hcsv : save_to_csv CsvOutcome.ok (assignIds env items).1 fs
      = ⟨PyResult.ok (),
         some (itemKeys a2 :: (assignIds env items).1.map
           (fun it2 => (itemKeys a2).map (csvCell it2)))⟩ := by
    have hhom : ∀ it2 ∈ a2 :: l2, ∀ kv ∈ it2,
        (itemKeys a2).contains kv.1 = true := by
      intro it2 h2 kv hkv
      have hkeys2 : itemKeys it2 = itemKeys a2 := by
        rw [hk2]
        exact (hmem it2 (ha2 ▸ h2)).1
      have hmem2 : kv.1 ∈ itemKeys it2 := List.mem_map_of_mem Prod.fst hkv
      rw [hkeys2] at hmem2
      simpa using hmem2
    rw [ha2]
    simp [save_to_csv, writeRowsAux_total (itemKeys a2) (a2 :: l2) hhom]
  rw [persist_table_clientError env fs CsvOutcome.ok items (some tn) htn hne]
  refine ⟨rfl, ?_, ?_, ?_⟩
  · intro heq
    have h4 : itemKeys a = ["referencia", "reporte_url", "fecha_hora", "magnitud"] :=
      hkeys a (by rw [hal]; exact List.mem_cons_self a l)
    have heads : a2 = a := by
      rw [ha2, hal] at heq
      exact (List.cons.injEq a2 l2 a l).mp heq |>.1
    have hContra : itemKeys a
        = ["referencia", "reporte_url", "fecha_hora", "magnitud"] ++ ["id"] :=
      heads ▸ hk2
    rw [h4] at hContra
    simp at hContra
  · intro it2 h2
    have := hmem it2 h2
    simpa using this
  · simp only
    rw [hcsv]
    rw [hk2]
    simp

/-- Witness for C9 on one concrete fetched row. -/
theorem c9_fallback_mutation_witness :
    (persist_with_fallback envDemo Option.none DdbOutcome.clientError CsvOutcome.ok
        (fetch_latest_sismos envDemo (Transport.response 200 [rowDemo]) 1)
        (some "sismos")).csvCalls
      = [(assignIds envDemo
            (fetch_latest_sismos envDemo (Transport.response 200 [rowDemo]) 1)).1] :=
  (c9_fallback_sees_mutated_records envDemo Option.none 200 1 [rowDemo] "sismos"
    (by decide) (by decide) (by decide)).1
